import Mathlib

/-!
Verification of the Wind-Constraint-Tracker estimation pipeline.

Shallow embedding of the Python sources of the repository:
  * `src/calculate_physics.py` — the standalone estimator `calculate_physics_impact`
  * `src/dashboard.py`         — the dashboard pipeline `load_data` and its metrics
  * `src/ingest_static.py`     — the classifier `load_wind_ids`
  * `src/ingest_api.py`        — the fetcher `fetch_bid_offer_data`

Timestamps are modelled as integer seconds; power levels and derived
quantities as rationals.  A missing cell (pandas `NaN`) in the static
reference table is modelled as `Option.none`.  A reference source that
cannot be loaded (missing file, unreadable content, absent expected
column — all of which raise in pandas) is modelled as `Option.none` at
the table level.
-/

namespace WindTracker

/-- One bid-offer acceptance row of `data/raw/raw_acceptances.csv`:
columns `bmUnitId, timeFrom, timeTo, levelFrom, levelTo`.
Times are seconds; levels are MW. -/
structure AcceptanceRecord where
  bmUnitId : String
  timeFrom : Int
  timeTo : Int
  levelFrom : ℚ
  levelTo : ℚ
deriving Repr, DecidableEq

/-- Pandas step `df["duration_hours"] = (df["timeTo"] - df["timeFrom"]).dt.total_seconds() / 3600`
(calculate_physics.py line 18, dashboard.py line 56). -/
def duration_hours (r : AcceptanceRecord) : ℚ :=
  ((r.timeTo - r.timeFrom : Int) : ℚ) / 3600

/-- Pandas step `df["mwh_volume"] = ((df["levelFrom"] + df["levelTo"]) / 2) * df["duration_hours"]`
(calculate_physics.py line 19, dashboard.py line 57). -/
def mwh_volume (r : AcceptanceRecord) : ℚ :=
  ((r.levelFrom + r.levelTo) / 2) * duration_hours r

/-- Pandas step `wind_df["delta"] = wind_df["levelTo"] - wind_df["levelFrom"]`
(calculate_physics.py line 58). -/
def delta (r : AcceptanceRecord) : ℚ :=
  r.levelTo - r.levelFrom

/-- The instructed power profile that the two-point trapezoidal rule
integrates exactly: the linear ramp from `levelFrom` at the start of the
window to `levelTo` at its end, parametrised by the fraction
`s ∈ [0, 1]` of the window elapsed.  (Defined for stating exactness of
the formula; the source never materialises it.) -/
def linearRamp (r : AcceptanceRecord) (s : ℚ) : ℚ :=
  r.levelFrom + (r.levelTo - r.levelFrom) * s

/-- The composite `n`-panel trapezoidal approximation of the integral of
`linearRamp` over the instruction window: panel `i` covers the fractions
`[i/n, (i+1)/n]`, i.e. a sub-window of `duration_hours r / n` hours. -/
def rampTrapSum (r : AcceptanceRecord) (n : ℕ) : ℚ :=
  (Finset.range n).sum (fun i =>
    ((linearRamp r (i / n) + linearRamp r ((i + 1) / n)) / 2) *
      (duration_hours r / n))

/-- One row of the static reference table `data/static/BMUFuelType.xlsx`,
after the header-strip step, with the three columns the pipelines read:
`BMRS FUEL TYPE`, `NESO BMU ID`, `SETT UNIT ID`.  A `none` identifier is
a missing cell (pandas `NaN`). -/
structure StaticRow where
  fuelType : String
  nesoBmuId : Option String
  settUnitId : Option String
deriving Repr, DecidableEq

/-- The inline classifier of `calculate_physics_impact`
(calculate_physics.py lines 28-36): filter rows whose
`BMRS FUEL TYPE` is `WIND`, take the non-missing values of both
identifier columns (`dropna`) and combine them. -/
def cpWindIds (tbl : List StaticRow) : List String :=
  let wind_rows := tbl.filter (fun row => row.fuelType == "WIND")
  let id_set_1 := wind_rows.filterMap (fun row => row.nesoBmuId)
  let id_set_2 := wind_rows.filterMap (fun row => row.settUnitId)
  id_set_1 ++ id_set_2

/-- The `try/except` wrapper around the inline classifier
(calculate_physics.py lines 24-42): on any load failure the exception is
caught and `wind_ids = set()`. -/
def cpWindIdsSafe (src : Option (List StaticRow)) : List String :=
  match src with
  | some tbl => cpWindIds tbl
  | none => []

/-- The classifier `ingest_static.load_wind_ids` (ingest_static.py lines 3-18): filter
for `WIND`, then take `set(wind_df["NESO BMU ID"].unique())` — only the
first identifier column, and with no `dropna`, so a missing cell enters
the set as `NaN` (here `none`). -/
def load_wind_ids (tbl : List StaticRow) : List (Option String) :=
  let wind_df := tbl.filter (fun row => row.fuelType == "WIND")
  wind_df.map (fun row => row.nesoBmuId)

/-- Propagation wrapper: `load_wind_ids` has no exception handler: a load failure propagates
to the caller as an exception, modelled as `Except.error`. -/
def load_wind_ids_checked (src : Option (List StaticRow)) :
    Except String (List (Option String)) :=
  match src with
  | some tbl => Except.ok (load_wind_ids tbl)
  | none => Except.error "reference source could not be loaded"

/-- The wind dictionary of `dashboard.load_data` (dashboard.py line 64):
`set(wind_rows["NESO BMU ID"].unique()).union(set(wind_rows["SETT UNIT ID"].unique()))`
— both columns, but with no `dropna`, so missing cells enter as `NaN`. -/
def dashWindIds (tbl : List StaticRow) : List (Option String) :=
  let wind_rows := tbl.filter (fun row => row.fuelType == "WIND")
  wind_rows.map (fun row => row.nesoBmuId) ++
    wind_rows.map (fun row => row.settUnitId)

/-- Step 4 of `calculate_physics_impact` (lines 44-52):
`if wind_ids: wind_df = df[df["bmUnitId"].isin(wind_ids)] else: wind_df = df.copy()`. -/
def cpWindFilter (wind_ids : List String) (df : List AcceptanceRecord) :
    List AcceptanceRecord :=
  if wind_ids.isEmpty then df
  else df.filter (fun r => wind_ids.contains r.bmUnitId)

/-- Step 5 of `calculate_physics_impact` (lines 54-65): keep the rows
with `delta < 0`; if that leaves nothing, fall back to all wind rows. -/
def cpConstraintSet (wind_ids : List String) (df : List AcceptanceRecord) :
    List AcceptanceRecord :=
  let wind_df := cpWindFilter wind_ids df
  let constraint_df := wind_df.filter (fun r => decide (delta r < 0))
  if constraint_df.isEmpty then wind_df else constraint_df

/-- The built-in `abs` of Python on a rational value. -/
def pyAbs (q : ℚ) : ℚ := if q < 0 then -q else q

/-- Pandas step `intervention_mwh = abs(constraint_df["mwh_volume"].sum())`
(calculate_physics.py line 70). -/
def intervention_mwh (wind_ids : List String) (df : List AcceptanceRecord) : ℚ :=
  pyAbs ((cpConstraintSet wind_ids df).map mwh_volume).sum

/-- Pandas step `estimated_cost = intervention_mwh * 70` (calculate_physics.py line 73). -/
def estimated_cost (wind_ids : List String) (df : List AcceptanceRecord) : ℚ :=
  intervention_mwh wind_ids df * 70

/-- The record set `dashboard.load_data` returns for aggregation
(dashboard.py lines 45-71): if the reference table loads, filter by
membership of `bmUnitId` in the dictionary (no emptiness check, no
delta filter); if it is missing, show all assets. -/
def load_data_records (excel : Option (List StaticRow))
    (df : List AcceptanceRecord) : List AcceptanceRecord :=
  match excel with
  | some tbl => df.filter (fun r => (dashWindIds tbl).contains (some r.bmUnitId))
  | none => df

/-- Pandas step `total_mwh = abs(df["mwh_volume"].sum())` (dashboard.py line 224). -/
def dashboard_total_mwh (excel : Option (List StaticRow))
    (df : List AcceptanceRecord) : ℚ :=
  pyAbs ((load_data_records excel df).map mwh_volume).sum

/-- Pandas step `total_cost = total_mwh * 70` (dashboard.py line 225). -/
def dashboard_total_cost (excel : Option (List StaticRow))
    (df : List AcceptanceRecord) : ℚ :=
  dashboard_total_mwh excel df * 70

/-- The signed per-asset group sum
`df.groupby("bmUnitId")["mwh_volume"].sum()` evaluated at one asset. -/
def groupSum (df : List AcceptanceRecord) (id : String) : ℚ :=
  ((df.filter (fun r => r.bmUnitId == id)).map mwh_volume).sum

/-- The distinct asset identifiers of a record list, in order of first
appearance (the group keys of `groupby("bmUnitId")`). -/
def assetIds (df : List AcceptanceRecord) : List String :=
  (df.map (fun r => r.bmUnitId)).dedup

/-- Descending order on the per-asset magnitudes (`sort_values(ascending=False)`). -/
def volGE (a b : String × ℚ) : Prop := b.2 ≤ a.2

instance : DecidableRel volGE := fun a b => inferInstanceAs (Decidable (b.2 ≤ a.2))

/-- Pandas step `df.groupby("bmUnitId")["mwh_volume"].sum().abs().sort_values(ascending=False)`
(calculate_physics.py line 83, dashboard.py lines 241 and 250): the
per-asset table of magnitudes of summed volumes, sorted descending. -/
def perAssetTable (df : List AcceptanceRecord) : List (String × ℚ) :=
  List.insertionSort volGE ((assetIds df).map (fun id => (id, pyAbs (groupSum df id))))

/-- The outcome of one settlement period in `fetch_bid_offer_data`
(ingest_api.py lines 17-42): `some records` when the request returned
status 200 with a well-formed body, `none` on non-success status,
timeout or malformed body (all skipped by the `else`/`except` arms). -/
def PeriodResponse (α : Type) : Type := ℕ → Option (List α)

/-- The accumulator loop of `fetch_bid_offer_data`: for each remaining
period, on success `all_data.extend(data)`, on failure skip and continue. -/
def fetchLoop {α : Type} (resp : PeriodResponse α) :
    List ℕ → List α → List α
  | [], all_data => all_data
  | p :: ps, all_data =>
    match resp p with
    | some data => fetchLoop resp ps (all_data ++ data)
    | none => fetchLoop resp ps all_data

/-- Loop bounds `for period in range(1, 49)` — the 48 settlement periods. -/
def settlementPeriods : List ℕ := (List.range 48).map (· + 1)

/-- The fetcher `fetch_bid_offer_data` (ingest_api.py lines 17-42): loop the 48
periods, accumulating the records of every successful period. -/
def fetch_bid_offer_data {α : Type} (resp : PeriodResponse α) : List α :=
  fetchLoop resp settlementPeriods []

/-! ### Concrete fixtures

The two-row end-to-end scenario of the spec (asset `T_TEST-1`, `T = 0`
seconds), reference tables exercising the identifier columns, and a
record whose end time precedes its start time. -/

/-- Record with `timeFrom = T`, `timeTo = T + 1h`, `levelFrom = 100`, `levelTo = 50`. -/
def rec1 : AcceptanceRecord := ⟨"T_TEST-1", 0, 3600, 100, 50⟩

/-- Record with `timeFrom = T + 1h`, `timeTo = T + 2h`, `levelFrom = 50`, `levelTo = 50`. -/
def rec2 : AcceptanceRecord := ⟨"T_TEST-1", 3600, 7200, 50, 50⟩

/-- The two-row acceptance input of the end-to-end scenario. -/
def testRecs : List AcceptanceRecord := [rec1, rec2]

/-- A reference table classifying `T_TEST-1` as wind via the registry
(`NESO BMU ID`) column. -/
def testTbl : List StaticRow := [⟨"WIND", some "T_TEST-1", none⟩]

/-- A reference table whose only wind row carries its identifier in the
second (`SETT UNIT ID`) column only. -/
def tblOnlySett : List StaticRow := [⟨"WIND", none, some "T_TEST-1"⟩]

/-- A wind row with both identifier cells missing. -/
def tblAllMissing : List StaticRow := [⟨"WIND", none, none⟩]

/-- A loadable reference table containing no wind rows. -/
def tblNoWind : List StaticRow := [⟨"CCGT", some "T_GAS-1", some "E_GAS-1"⟩]

/-- A record whose end time precedes its start time by one hour. -/
def badRec : AcceptanceRecord := ⟨"T_BAD-1", 7200, 3600, 200, 200⟩

/-! ### Helper lemmas -/

/-- The `abs` of Python is the mathematical absolute value. -/
lemma pyAbs_eq_abs (q : ℚ) : pyAbs q = |q| := by
  rcases lt_or_le q 0 with h | h
  · rw [pyAbs, if_pos h, abs_of_neg h]
  · rw [pyAbs, if_neg (not_lt.mpr h), abs_of_nonneg h]

lemma sum_range_odd (n : ℕ) :
    ∑ i in Finset.range n, (2 * (i : ℚ) + 1) = (n : ℚ) ^ 2 := by
  induction n with
  | zero => simp
  | succ m ih =>
    rw [Finset.sum_range_succ, ih]
    push_cast
    ring

/-- Membership in the set of the inline classifier: exactly the identifiers
appearing, non-missing, in either identifier column of a wind row. -/
lemma mem_cpWindIds {tbl : List StaticRow} {s : String} :
    s ∈ cpWindIds tbl ↔
      ∃ row ∈ tbl, row.fuelType = "WIND" ∧
        (row.nesoBmuId = some s ∨ row.settUnitId = some s) := by
  simp only [cpWindIds, List.mem_append, List.mem_filterMap, List.mem_filter,
    beq_iff_eq]
  constructor
  · rintro (⟨row, ⟨hmem, hfuel⟩, hid⟩ | ⟨row, ⟨hmem, hfuel⟩, hid⟩)
    · exact ⟨row, hmem, hfuel, Or.inl hid⟩
    · exact ⟨row, hmem, hfuel, Or.inr hid⟩
  · rintro ⟨row, hmem, hfuel, hid | hid⟩
    · exact Or.inl ⟨row, ⟨hmem, hfuel⟩, hid⟩
    · exact Or.inr ⟨row, ⟨hmem, hfuel⟩, hid⟩

/-- The dashboard dictionary and the inline classifier set agree on
string membership: the `NaN` entries the dashboard fails to drop can
never equal an actual identifier. -/
lemma mem_dashWindIds {tbl : List StaticRow} {s : String} :
    some s ∈ dashWindIds tbl ↔ s ∈ cpWindIds tbl := by
  rw [mem_cpWindIds]
  simp only [dashWindIds, List.mem_append, List.mem_map, List.mem_filter,
    beq_iff_eq]
  constructor
  · rintro (⟨row, ⟨hmem, hfuel⟩, hid⟩ | ⟨row, ⟨hmem, hfuel⟩, hid⟩)
    · exact ⟨row, hmem, hfuel, Or.inl hid⟩
    · exact ⟨row, hmem, hfuel, Or.inr hid⟩
  · rintro ⟨row, hmem, hfuel, hid | hid⟩
    · exact Or.inl ⟨row, ⟨hmem, hfuel⟩, hid⟩
    · exact Or.inr ⟨row, ⟨hmem, hfuel⟩, hid⟩

/-- When the wind-id set is non-empty, both pipelines filter the raw
records by the same membership test. -/
lemma load_data_records_eq_cpWindFilter {tbl : List StaticRow}
    (df : List AcceptanceRecord) (h : cpWindIds tbl ≠ []) :
    load_data_records (some tbl) df = cpWindFilter (cpWindIds tbl) df := by
  rw [load_data_records, cpWindFilter, if_neg (by simpa [List.isEmpty_iff] using h)]
  refine List.filter_congr (fun r _ => ?_)
  rw [Bool.eq_iff_iff]
  simp [mem_dashWindIds]

/-- Whenever the turn-down filter keeps nothing or everything, the
constraint set of the estimator is exactly its wind set. -/
lemma cpConstraintSet_eq_of_trivial {wind_ids : List String}
    {df : List AcceptanceRecord}
    (h : (cpWindFilter wind_ids df).filter (fun r => decide (delta r < 0)) = [] ∨
         (cpWindFilter wind_ids df).filter (fun r => decide (delta r < 0)) =
           cpWindFilter wind_ids df) :
    cpConstraintSet wind_ids df = cpWindFilter wind_ids df := by
  rcases h with h | h
  · simp [cpConstraintSet, h]
  · rw [cpConstraintSet]
    simp only [h]
    split <;> simp_all [List.isEmpty_iff]

/-- Unrolling the fetch loop: the accumulator is only ever extended, so
the loop returns the prefix followed by the data of every successful period. -/
lemma fetchLoop_eq {α : Type} (resp : PeriodResponse α) (ps : List ℕ)
    (acc : List α) :
    fetchLoop resp ps acc = acc ++ (ps.map (fun p => (resp p).getD [])).flatten := by
  induction ps generalizing acc with
  | nil => simp [fetchLoop]
  | cons p ps ih =>
    rw [fetchLoop]
    cases h : resp p with
    | some data => simp [ih, h]
    | none => simp [ih, h]

instance : IsTotal (String × ℚ) volGE :=
  ⟨fun a b => le_total b.2 a.2⟩

instance : IsTrans (String × ℚ) volGE :=
  ⟨fun _ _ _ hab hbc => le_trans hbc hab⟩

/-! ### Claims -/

/-- C1: For every acceptance record the estimator computes
`duration_hours` as `timeTo - timeFrom` expressed in hours, and the
energy volume exactly as `((levelFrom + levelTo) / 2) * duration_hours`
— the two-point trapezoidal rule, which moreover agrees with the
`n`-panel trapezoidal integration of the linear ramp between the two
levels for every panel count, so no refinement of the integration rule
would change the value on a linear ramp. -/
theorem c1_trapezoidal_volume (r : AcceptanceRecord) (n : ℕ) (hn : 0 < n) :
    duration_hours r = ((r.timeTo - r.timeFrom : Int) : ℚ) / 3600 ∧
    mwh_volume r = ((r.levelFrom + r.levelTo) / 2) * duration_hours r ∧
    rampTrapSum r n = mwh_volume r := by
  refine ⟨rfl, rfl, ?_⟩
  have hn' : (n : ℚ) ≠ 0 := Nat.cast_ne_zero.mpr hn.ne'
  have key : ∀ i ∈ Finset.range n,
      ((linearRamp r (i / n) + linearRamp r ((i + 1) / n)) / 2) * (duration_hours r / n) =
        r.levelFrom * (duration_hours r / n) +
          ((r.levelTo - r.levelFrom) * duration_hours r / (2 * (n : ℚ) ^ 2)) * (2 * (i : ℚ) + 1) := by
    intro i _
    rw [linearRamp, linearRamp]
    field_simp
    ring
  rw [rampTrapSum, Finset.sum_congr rfl key, Finset.sum_add_distrib, Finset.sum_const,
    Finset.card_range, ← Finset.mul_sum, sum_range_odd, nsmul_eq_mul, mwh_volume]
  field_simp
  ring

/-- Witness for C1: the formulas evaluated on the first scenario record
with a four-panel trapezoidal sum. -/
theorem c1_trapezoidal_volume_witness :
    0 < 4 ∧
    (duration_hours rec1 = ((rec1.timeTo - rec1.timeFrom : Int) : ℚ) / 3600 ∧
     mwh_volume rec1 = ((rec1.levelFrom + rec1.levelTo) / 2) * duration_hours rec1 ∧
     rampTrapSum rec1 4 = mwh_volume rec1) :=
  ⟨by decide, c1_trapezoidal_volume rec1 4 (by decide)⟩

/-- C2 (counterexample): on the two-record scenario input for
`T_TEST-1` the standalone estimator does NOT produce the claimed
125 MWh and cost 8750: its turn-down filter keeps only the first record
(the second has level delta 0), yielding 75 MWh and cost 5250. -/
theorem c2_scenario_counterexample :
    pyAbs (groupSum (cpConstraintSet (cpWindIdsSafe (some testTbl)) testRecs) "T_TEST-1") = 75 ∧
    estimated_cost (cpWindIdsSafe (some testTbl)) testRecs = 5250 ∧
    ¬ (pyAbs (groupSum (cpConstraintSet (cpWindIdsSafe (some testTbl)) testRecs) "T_TEST-1") = 125 ∧
       estimated_cost (cpWindIdsSafe (some testTbl)) testRecs = 8750) := by
  refine ⟨?_, ?_, ?_⟩ <;>
    norm_num [groupSum, estimated_cost, intervention_mwh, cpConstraintSet, cpWindFilter,
      cpWindIdsSafe, cpWindIds, testTbl, testRecs, rec1, rec2, mwh_volume,
      duration_hours, delta, pyAbs]

/-- C2 (amended): on the scenario input the dashboard pipeline — which
applies no turn-down filter — produces the expected per-asset volume
125 MWh and cost 8750, while the standalone estimator, whose `delta < 0`
filter drops the second record, produces 75 MWh and cost 5250. -/
theorem c2_scenario_amended :
    dashboard_total_mwh (some testTbl) testRecs = 125 ∧
    dashboard_total_cost (some testTbl) testRecs = 8750 ∧
    perAssetTable (load_data_records (some testTbl) testRecs) = [("T_TEST-1", 125)] ∧
    intervention_mwh (cpWindIdsSafe (some testTbl)) testRecs = 75 ∧
    estimated_cost (cpWindIdsSafe (some testTbl)) testRecs = 5250 ∧
    perAssetTable (cpConstraintSet (cpWindIdsSafe (some testTbl)) testRecs) = [("T_TEST-1", 75)] := by
  refine ⟨?_, ?_, ?_, ?_, ?_, ?_⟩ <;>
    norm_num [dashboard_total_mwh, dashboard_total_cost, load_data_records, dashWindIds,
      perAssetTable, assetIds, groupSum, estimated_cost, intervention_mwh,
      cpConstraintSet, cpWindFilter, cpWindIdsSafe, cpWindIds, testTbl, testRecs,
      rec1, rec2, mwh_volume, duration_hours, delta, pyAbs,
      List.insertionSort, List.orderedInsert, List.dedup]

/-- C3 (counterexample): on a reference table whose only wind row
carries its identifier solely in the `SETT UNIT ID` column, the
classifier `load_wind_ids` misses that identifier (so a record matching
only the second column is not classified as wind), while its set does
contain the missing-cell marker of the first column; the dashboard
dictionary likewise admits missing-cell markers. -/
theorem c3_union_counterexample :
    (∃ row ∈ tblOnlySett, row.fuelType = "WIND" ∧ row.settUnitId = some "T_TEST-1") ∧
    some "T_TEST-1" ∉ load_wind_ids tblOnlySett ∧
    none ∈ load_wind_ids tblOnlySett ∧
    none ∈ dashWindIds tblAllMissing := by
  refine ⟨⟨⟨"WIND", none, some "T_TEST-1"⟩, by decide, rfl, rfl⟩, by decide, by decide, by decide⟩

/-- C3 (amended): the inline classifier of `calculate_physics_impact`
does satisfy the union property — its set holds exactly the identifiers
appearing non-missing in either identifier column of a wind row — and
the dashboard dictionary agrees with it on every actual identifier; but
`load_wind_ids` reads only the registry column, without dropping
missing cells. -/
theorem c3_union_amended (tbl : List StaticRow) (s : String) :
    (s ∈ cpWindIds tbl ↔
      ∃ row ∈ tbl, row.fuelType = "WIND" ∧
        (row.nesoBmuId = some s ∨ row.settUnitId = some s)) ∧
    (some s ∈ dashWindIds tbl ↔ s ∈ cpWindIds tbl) ∧
    (some s ∈ load_wind_ids tbl ↔
      ∃ row ∈ tbl, row.fuelType = "WIND" ∧ row.nesoBmuId = some s) := by
  refine ⟨mem_cpWindIds, mem_dashWindIds, ?_⟩
  simp only [load_wind_ids, List.mem_map, List.mem_filter, beq_iff_eq]
  constructor
  · rintro ⟨row, ⟨hmem, hfuel⟩, hid⟩
    exact ⟨row, hmem, hfuel, hid⟩
  · rintro ⟨row, hmem, hfuel, hid⟩
    exact ⟨row, ⟨hmem, hfuel⟩, hid⟩

/-- C4 (code bug): a record whose end time precedes its start time is
neither rejected nor flagged: its negative duration and volume flow
straight into the aggregate, which the spec calls a defect condition.
With `badRec` (end one hour before start, both levels 200) the code
computes duration −1 h and volume −200 MWh, `badRec` survives into the
constraint set, and the reported total changes from 50 to 150 MWh. -/
theorem c4_negative_duration_propagates :
    duration_hours badRec = -1 ∧
    mwh_volume badRec = -200 ∧
    badRec ∈ cpConstraintSet [] [rec2, badRec] ∧
    intervention_mwh [] [rec2] = 50 ∧
    intervention_mwh [] [rec2, badRec] = 150 := by
  refine ⟨?_, ?_, ?_, ?_, ?_⟩ <;>
    norm_num [duration_hours, mwh_volume, intervention_mwh, cpConstraintSet,
      cpWindFilter, delta, rec2, badRec, pyAbs]

/-- C5: if the turn-down filter (`delta < 0`) removes every wind
record, the estimator falls back to all wind records: the aggregate
equals the unfiltered wind aggregate, not an empty or zero result. -/
theorem c5_intervention_fallback (wind_ids : List String)
    (df : List AcceptanceRecord)
    (h : (cpWindFilter wind_ids df).filter (fun r => decide (delta r < 0)) = []) :
    cpConstraintSet wind_ids df = cpWindFilter wind_ids df ∧
    intervention_mwh wind_ids df =
      pyAbs ((cpWindFilter wind_ids df).map mwh_volume).sum := by
  have h1 := cpConstraintSet_eq_of_trivial (Or.inl h)
  exact ⟨h1, by rw [intervention_mwh, h1]⟩

/-- Witness for C5: the second scenario record has level delta 0, so
the turn-down filter removes everything and the fallback applies. -/
theorem c5_intervention_fallback_witness :
    (cpWindFilter ["T_TEST-1"] [rec2]).filter (fun r => decide (delta r < 0)) = [] ∧
    (cpConstraintSet ["T_TEST-1"] [rec2] = cpWindFilter ["T_TEST-1"] [rec2] ∧
     intervention_mwh ["T_TEST-1"] [rec2] =
       pyAbs ((cpWindFilter ["T_TEST-1"] [rec2]).map mwh_volume).sum) := by
  have h : (cpWindFilter ["T_TEST-1"] [rec2]).filter (fun r => decide (delta r < 0)) = [] := by
    norm_num [cpWindFilter, delta, rec2]
  exact ⟨h, c5_intervention_fallback ["T_TEST-1"] [rec2] h⟩

/-- C6 (counterexample): when the reference source cannot be loaded,
the classifier inside `calculate_physics_impact` returns the empty
identifier set — the very value it returns for a successfully loaded
table with no wind rows — so the caller receives no distinguishable
failure. -/
theorem c6_failure_counterexample :
    cpWindIdsSafe none = [] ∧
    cpWindIdsSafe (some tblNoWind) = [] ∧
    cpWindIdsSafe none = cpWindIdsSafe (some tblNoWind) := by
  refine ⟨rfl, by decide, by decide⟩

/-- C6 (amended): `ingest_static.load_wind_ids` does propagate a load
failure as an exception (modelled `Except.error`), but the inline
classifier of `calculate_physics_impact` catches it and returns the
empty set — indistinguishable from a loaded wind-free table — whereupon
the estimator silently proceeds with all records. -/
theorem c6_failure_amended (tbl : List StaticRow) (df : List AcceptanceRecord)
    (h : ∀ row ∈ tbl, row.fuelType ≠ "WIND") :
    load_wind_ids_checked none = Except.error "reference source could not be loaded" ∧
    cpWindIdsSafe none = [] ∧
    cpWindIdsSafe (some tbl) = cpWindIdsSafe none ∧
    cpWindFilter (cpWindIdsSafe none) df = df := by
  have hfilter : tbl.filter (fun row => row.fuelType == "WIND") = [] := by
    rw [List.filter_eq_nil_iff]
    intro row hrow
    simpa using h row hrow
  refine ⟨rfl, rfl, ?_, by simp [cpWindFilter, cpWindIdsSafe]⟩
  simp [cpWindIdsSafe, cpWindIds, hfilter]

/-- Witness for C6 (amended): instantiated at the wind-free gas table
and the scenario records. -/
theorem c6_failure_amended_witness :
    (∀ row ∈ tblNoWind, row.fuelType ≠ "WIND") ∧
    (load_wind_ids_checked none = Except.error "reference source could not be loaded" ∧
     cpWindIdsSafe none = [] ∧
     cpWindIdsSafe (some tblNoWind) = cpWindIdsSafe none ∧
     cpWindFilter (cpWindIdsSafe none) testRecs = testRecs) :=
  ⟨by decide, c6_failure_amended tblNoWind testRecs (by decide)⟩

/-- C7: with an empty wind-identifier set the estimator skips the
classification filter entirely and proceeds with all records. -/
theorem c7_empty_wind_set (wind_ids : List String) (df : List AcceptanceRecord)
    (h : wind_ids = []) :
    cpWindFilter wind_ids df = df := by
  subst h
  simp [cpWindFilter]

/-- Witness for C7: the empty set on the scenario records. -/
theorem c7_empty_wind_set_witness :
    ([] : List String) = [] ∧ cpWindFilter [] testRecs = testRecs :=
  ⟨rfl, c7_empty_wind_set [] testRecs rfl⟩

/-- C8: for every record list the per-asset table carries, for each
group, the magnitude of the summed signed volumes, is sorted descending
by that magnitude, its keys are exactly the distinct asset identifiers,
and both pipelines price the total as the absolute value of the total
summed volume times the constant 70. -/
theorem c8_aggregation (df : List AcceptanceRecord) :
    List.Sorted volGE (perAssetTable df) ∧
    (∀ p ∈ perAssetTable df, p.2 = |groupSum df p.1|) ∧
    ((perAssetTable df).map Prod.fst).Perm (assetIds df) ∧
    (∀ wind_ids, estimated_cost wind_ids df =
      |((cpConstraintSet wind_ids df).map mwh_volume).sum| * 70) ∧
    (∀ excel, dashboard_total_cost excel df =
      |((load_data_records excel df).map mwh_volume).sum| * 70) := by
  refine ⟨List.sorted_insertionSort volGE _, ?_, ?_, ?_, ?_⟩
  · intro p hp
    have hmem := (List.perm_insertionSort volGE _).mem_iff.mp hp
    rw [List.mem_map] at hmem
    obtain ⟨id, _, rfl⟩ := hmem
    exact pyAbs_eq_abs _
  · rw [perAssetTable]
    have hperm := (List.perm_insertionSort volGE
      ((assetIds df).map (fun id => (id, pyAbs (groupSum df id))))).map Prod.fst
    simpa [List.map_map, Function.comp_def] using hperm
  · intro wind_ids
    rw [estimated_cost, intervention_mwh, pyAbs_eq_abs]
  · intro excel
    rw [dashboard_total_cost, dashboard_total_mwh, pyAbs_eq_abs]

/-- Witness for C8: the scenario table contains the single entry for
`T_TEST-1`, whose value is the magnitude of its group sum. -/
theorem c8_aggregation_witness :
    ("T_TEST-1", (125 : ℚ)) ∈ perAssetTable testRecs ∧
    (("T_TEST-1", (125 : ℚ)) : String × ℚ).2 = |groupSum testRecs "T_TEST-1"| := by
  have hmem : ("T_TEST-1", (125 : ℚ)) ∈ perAssetTable testRecs := by
    norm_num [perAssetTable, assetIds, groupSum, testRecs, rec1, rec2, mwh_volume,
      duration_hours, pyAbs, List.insertionSort, List.orderedInsert, List.dedup]
  exact ⟨hmem, (c8_aggregation testRecs).2.1 _ hmem⟩

/-- C9: a failure of any settlement period never aborts the fetch: the
loop visits all 48 periods and returns exactly the concatenation of the
record lists of the successful periods, whatever the failure pattern. -/
theorem c9_fetch_never_aborts {α : Type} (resp : PeriodResponse α) :
    fetch_bid_offer_data resp =
      (settlementPeriods.map (fun p => (resp p).getD [])).flatten := by
  rw [fetch_bid_offer_data, fetchLoop_eq]
  simp

/-- C10 (counterexample): on the two-record scenario input the record
set the dashboard passes to aggregation differs from the constraint set
the standalone estimator aggregates — the estimator drops the second
record — and the two totals differ (125 vs 75 MWh). -/
theorem c10_pipelines_counterexample :
    load_data_records (some testTbl) testRecs = [rec1, rec2] ∧
    cpConstraintSet (cpWindIdsSafe (some testTbl)) testRecs = [rec1] ∧
    load_data_records (some testTbl) testRecs ≠
      cpConstraintSet (cpWindIdsSafe (some testTbl)) testRecs ∧
    dashboard_total_mwh (some testTbl) testRecs ≠
      intervention_mwh (cpWindIdsSafe (some testTbl)) testRecs := by
  refine ⟨?_, ?_, ?_, ?_⟩ <;>
    norm_num [load_data_records, dashWindIds, cpConstraintSet, cpWindFilter,
      cpWindIdsSafe, cpWindIds, dashboard_total_mwh, intervention_mwh,
      testTbl, testRecs, rec1, rec2, mwh_volume, duration_hours, delta, pyAbs]

/-- C10 (amended): whenever the reference table yields at least one
wind identifier, the two pipelines agree up through the wind filter;
and if the turn-down filter additionally removes none or all of the
wind records, the estimator constraint set collapses to the wind set
and the two pipelines produce identical totals and costs. -/
theorem c10_pipelines_amended (tbl : List StaticRow) (df : List AcceptanceRecord)
    (h1 : cpWindIds tbl ≠ [])
    (h2 : (cpWindFilter (cpWindIds tbl) df).filter (fun r => decide (delta r < 0)) = [] ∨
          (cpWindFilter (cpWindIds tbl) df).filter (fun r => decide (delta r < 0)) =
            cpWindFilter (cpWindIds tbl) df) :
    load_data_records (some tbl) df = cpWindFilter (cpWindIds tbl) df ∧
    dashboard_total_mwh (some tbl) df = intervention_mwh (cpWindIds tbl) df ∧
    dashboard_total_cost (some tbl) df = estimated_cost (cpWindIds tbl) df := by
  have heq := load_data_records_eq_cpWindFilter df h1
  have hcs := cpConstraintSet_eq_of_trivial h2
  have htot : dashboard_total_mwh (some tbl) df = intervention_mwh (cpWindIds tbl) df := by
    rw [dashboard_total_mwh, heq, intervention_mwh, hcs]
  exact ⟨heq, htot, by rw [dashboard_total_cost, estimated_cost, htot]⟩

/-- Witness for C10 (amended): the scenario table with the single
second record, on which the turn-down filter removes everything. -/
theorem c10_pipelines_amended_witness :
    cpWindIds testTbl ≠ [] ∧
    (cpWindFilter (cpWindIds testTbl) [rec2]).filter (fun r => decide (delta r < 0)) = [] ∧
    (load_data_records (some testTbl) [rec2] = cpWindFilter (cpWindIds testTbl) [rec2] ∧
     dashboard_total_mwh (some testTbl) [rec2] = intervention_mwh (cpWindIds testTbl) [rec2] ∧
     dashboard_total_cost (some testTbl) [rec2] = estimated_cost (cpWindIds testTbl) [rec2]) := by
  have h2 : (cpWindFilter (cpWindIds testTbl) [rec2]).filter (fun r => decide (delta r < 0)) = [] := by
    norm_num [cpWindFilter, cpWindIds, testTbl, delta, rec2]
  exact ⟨by decide, h2, c10_pipelines_amended testTbl [rec2] (by decide) (Or.inl h2)⟩

end WindTracker
